import Mathlib

/-!
# QQ-replit plot-structure pipeline: a shallow embedding

This file embeds the plot-structure subsystem of the QQ-replit repository:
the data model of `shared/schema.ts`, the `DatabaseStorage` methods of
`server/storage.ts`, the REST handlers of `server/routes.ts` (including the
`isAuthenticated` middleware), and the template seed routine
`initPlotTemplates` with its fixed data set `plotTemplates`.

Modelling conventions:
* The relational store is a record of row lists (table order = insertion
  order); Postgres `serial` ids are per-table counters.
* Timestamps (`new Date()`, `defaultNow()`) are `Nat` clock values passed in
  by the caller.
* The Template column `sections` is stored in the database as a JSON string
  (`JSON.stringify` of an array of `{key, title, description, order}`
  objects) and parsed back by the reading client; it is modelled as the
  parsed list `List SectionDef` directly, so a "sections list that parses to
  N entries" is a `sections` field of length N.
* A nullable column is an `Option`; for insert payloads, an absent field
  with a database default is `none` (the default is applied on insert).
  Explicitly inserting SQL `NULL` into a defaulted column is not modelled.
* `db.delete(...)` in drizzle returns a driver result object, so the
  source's `return !!result` is `true` regardless of how many rows matched;
  the model returns the same constant `true`.
-/

namespace QQReplit

/-- One entry of a Template's parsed `sections` JSON array
(`{key, title, description, order}`). -/
structure SectionDef where
  key : String
  title : String
  description : String
  order : Int
  deriving DecidableEq

/-- A row of `plot_structure_templates` (shared/schema.ts). -/
structure PlotStructureTemplateRow where
  id : Nat
  templateType : String
  name : String
  description : Option String
  sections : List SectionDef
  createdAt : Nat
  updatedAt : Nat
  isDefault : Bool
  deriving DecidableEq

/-- A row of `plot_structures` (shared/schema.ts): a per-project Instance of
a Template. -/
structure PlotStructureRow where
  id : Nat
  projectId : Nat
  templateId : Nat
  name : String
  description : Option String
  parentId : Option Nat
  order : Int
  createdAt : Nat
  updatedAt : Nat
  deriving DecidableEq

/-- A row of `plot_structure_sections` (shared/schema.ts): one editable
Section owned by an Instance. -/
structure PlotStructureSectionRow where
  id : Nat
  plotStructureId : Nat
  sectionKey : String
  title : String
  content : String
  order : Int
  createdAt : Nat
  updatedAt : Nat
  deriving DecidableEq

/-- `InsertPlotStructureTemplate` (the `insertPlotStructureTemplateSchema`
pick); `description` and `isDefault` are nullable, `isDefault` defaults to
`false`. -/
structure InsertPlotStructureTemplate where
  templateType : String
  name : String
  description : Option String := none
  sections : List SectionDef
  isDefault : Option Bool := none
  deriving DecidableEq

/-- `InsertPlotStructure` (the `insertPlotStructureSchema` pick);
`order` has database default `0`. -/
structure InsertPlotStructure where
  projectId : Nat
  templateId : Nat
  name : String
  description : Option String := none
  parentId : Option Nat := none
  order : Option Int := none
  deriving DecidableEq

/-- `InsertPlotStructureSection` (the `insertPlotStructureSectionSchema`
pick); `content` has database default `""`. -/
structure InsertPlotStructureSection where
  plotStructureId : Nat
  sectionKey : String
  title : String
  content : Option String := none
  order : Int
  deriving DecidableEq

/-- A `Partial<PlotStructure>` update payload (PUT /api/plot-structures/:id
passes `req.body` through unvalidated); `none` means the field is absent
from the payload. -/
structure PlotStructureUpdate where
  projectId : Option Nat := none
  templateId : Option Nat := none
  name : Option String := none
  description : Option (Option String) := none
  parentId : Option (Option Nat) := none
  order : Option Int := none
  deriving DecidableEq

/-- A `Partial<PlotStructureSection>` update payload
(PUT /api/plot-structure-sections/:id passes `req.body` through). -/
structure PlotStructureSectionUpdate where
  plotStructureId : Option Nat := none
  sectionKey : Option String := none
  title : Option String := none
  content : Option String := none
  order : Option Int := none
  deriving DecidableEq

/-- The relational store backing `DatabaseStorage`: the three tables of the
plot-structure subsystem, with one serial-id counter per table. -/
structure Store where
  plotStructureTemplates : List PlotStructureTemplateRow := []
  plotStructures : List PlotStructureRow := []
  plotStructureSections : List PlotStructureSectionRow := []
  nextTemplateId : Nat := 1
  nextStructureId : Nat := 1
  nextSectionId : Nat := 1
  deriving DecidableEq

/-! ## DatabaseStorage methods (server/storage.ts) -/

/-- `DatabaseStorage.getPlotStructureTemplate`: select by id. -/
def getPlotStructureTemplate (s : Store) (id : Nat) :
    Option PlotStructureTemplateRow :=
  s.plotStructureTemplates.find? (fun t => t.id == id)

/-- `DatabaseStorage.getAllPlotStructureTemplates`: plain select. -/
def getAllPlotStructureTemplates (s : Store) : List PlotStructureTemplateRow :=
  s.plotStructureTemplates

/-- `DatabaseStorage.createPlotStructureTemplate`: insert with returning;
also the shape of the direct `db.insert(plotStructureTemplates).values(t)`
used by `initPlotTemplates`. -/
def createPlotStructureTemplate (s : Store) (t : InsertPlotStructureTemplate)
    (clock : Nat) : Store × PlotStructureTemplateRow :=
  let row : PlotStructureTemplateRow :=
    { id := s.nextTemplateId
      templateType := t.templateType
      name := t.name
      description := t.description
      sections := t.sections
      createdAt := clock
      updatedAt := clock
      isDefault := t.isDefault.getD false }
  ({ s with
      plotStructureTemplates := s.plotStructureTemplates ++ [row]
      nextTemplateId := s.nextTemplateId + 1 }, row)

/-- `DatabaseStorage.getPlotStructure`: select by id. -/
def getPlotStructure (s : Store) (id : Nat) : Option PlotStructureRow :=
  s.plotStructures.find? (fun r => r.id == id)

/-- `DatabaseStorage.getProjectPlotStructures`: select where
`projectId = projectId`.  Note: the source has NO `orderBy` clause here. -/
def getProjectPlotStructures (s : Store) (projectId : Nat) :
    List PlotStructureRow :=
  s.plotStructures.filter (fun r => r.projectId == projectId)

/-- `DatabaseStorage.createPlotStructure`: insert with returning; database
defaults apply to absent fields (`order` defaults to 0, timestamps to now). -/
def createPlotStructure (s : Store) (b : InsertPlotStructure) (clock : Nat) :
    Store × PlotStructureRow :=
  let row : PlotStructureRow :=
    { id := s.nextStructureId
      projectId := b.projectId
      templateId := b.templateId
      name := b.name
      description := b.description
      parentId := b.parentId
      order := b.order.getD 0
      createdAt := clock
      updatedAt := clock }
  ({ s with
      plotStructures := s.plotStructures ++ [row]
      nextStructureId := s.nextStructureId + 1 }, row)

/-- The `set({ ...structureUpdate, updatedAt: new Date() })` merge of
`DatabaseStorage.updatePlotStructure`: every field present in the payload
overwrites the row; `updatedAt` is always set to now. -/
def applyStructureUpdate (r : PlotStructureRow) (u : PlotStructureUpdate)
    (clock : Nat) : PlotStructureRow :=
  { r with
      projectId := u.projectId.getD r.projectId
      templateId := u.templateId.getD r.templateId
      name := u.name.getD r.name
      description := u.description.getD r.description
      parentId := u.parentId.getD r.parentId
      order := u.order.getD r.order
      updatedAt := clock }

/-- `DatabaseStorage.updatePlotStructure`: update where `id = id` with
returning; yields the updated row, or `none` when no row matched. -/
def updatePlotStructure (s : Store) (id : Nat) (u : PlotStructureUpdate)
    (clock : Nat) : Store × Option PlotStructureRow :=
  ({ s with
      plotStructures := s.plotStructures.map
        (fun r => if r.id == id then applyStructureUpdate r u clock else r) },
    (s.plotStructures.find? (fun r => r.id == id)).map
      (fun r => applyStructureUpdate r u clock))

/-- `DatabaseStorage.deletePlotStructure`: `db.delete(plotStructures)` where
`id = id`, then `return !!result`.  The drizzle result is an object, hence
truthy, so the returned boolean is `true` whether or not a row matched.
Only the `plot_structures` table is touched. -/
def deletePlotStructure (s : Store) (id : Nat) : Store × Bool :=
  ({ s with
      plotStructures := s.plotStructures.filter (fun r => !(r.id == id)) },
    true)

/-- `DatabaseStorage.getPlotStructureSection`: select by id. -/
def getPlotStructureSection (s : Store) (id : Nat) :
    Option PlotStructureSectionRow :=
  s.plotStructureSections.find? (fun r => r.id == id)

/-- Ascending comparison on the `order` column of sections, the sort key of
`.orderBy(plotStructureSections.order)`. -/
def sectionLE (a b : PlotStructureSectionRow) : Prop := a.order ≤ b.order

instance : DecidableRel sectionLE := fun a b =>
  inferInstanceAs (Decidable (a.order ≤ b.order))

instance : IsTotal PlotStructureSectionRow sectionLE :=
  ⟨fun a b => Int.le_total a.order b.order⟩

instance : IsTrans PlotStructureSectionRow sectionLE :=
  ⟨fun _ _ _ h₁ h₂ => le_trans h₁ h₂⟩

/-- `DatabaseStorage.getPlotStructureSections`: select where
`plotStructureId = plotStructureId`, ordered by `order` ascending. -/
def getPlotStructureSections (s : Store) (plotStructureId : Nat) :
    List PlotStructureSectionRow :=
  List.insertionSort sectionLE
    (s.plotStructureSections.filter (fun r => r.plotStructureId == plotStructureId))

/-- `DatabaseStorage.createPlotStructureSection`: insert with returning;
`content` defaults to `""` when absent. -/
def createPlotStructureSection (s : Store) (b : InsertPlotStructureSection)
    (clock : Nat) : Store × PlotStructureSectionRow :=
  let row : PlotStructureSectionRow :=
    { id := s.nextSectionId
      plotStructureId := b.plotStructureId
      sectionKey := b.sectionKey
      title := b.title
      content := b.content.getD ""
      order := b.order
      createdAt := clock
      updatedAt := clock }
  ({ s with
      plotStructureSections := s.plotStructureSections ++ [row]
      nextSectionId := s.nextSectionId + 1 }, row)

/-- The `set({ ...sectionUpdate, updatedAt: new Date() })` merge of
`DatabaseStorage.updatePlotStructureSection`. -/
def applySectionUpdate (r : PlotStructureSectionRow)
    (u : PlotStructureSectionUpdate) (clock : Nat) : PlotStructureSectionRow :=
  { r with
      plotStructureId := u.plotStructureId.getD r.plotStructureId
      sectionKey := u.sectionKey.getD r.sectionKey
      title := u.title.getD r.title
      content := u.content.getD r.content
      order := u.order.getD r.order
      updatedAt := clock }

/-- `DatabaseStorage.updatePlotStructureSection`: update where `id = id`
with returning. -/
def updatePlotStructureSection (s : Store) (id : Nat)
    (u : PlotStructureSectionUpdate) (clock : Nat) :
    Store × Option PlotStructureSectionRow :=
  ({ s with
      plotStructureSections := s.plotStructureSections.map
        (fun r => if r.id == id then applySectionUpdate r u clock else r) },
    (s.plotStructureSections.find? (fun r => r.id == id)).map
      (fun r => applySectionUpdate r u clock))

/-- `DatabaseStorage.deletePlotStructureSection`: delete where `id = id`,
`return !!result` (always `true`, as for `deletePlotStructure`). -/
def deletePlotStructureSection (s : Store) (id : Nat) : Store × Bool :=
  ({ s with
      plotStructureSections :=
        s.plotStructureSections.filter (fun r => !(r.id == id)) },
    true)

/-! ## Template seed data and `initPlotTemplates` (server/init-plot-templates.ts,
server/data/plot-templates.ts) -/

/-- The fixed built-in template set from `data/plot-templates.ts` (`plotTemplates`).
Section `description` strings are transcribed verbatim; apostrophes are written
with the escape \x27. -/
def plotTemplates : List InsertPlotStructureTemplate := [
  { templateType := "freytag",
    name := "Freytag\x27s Pyramid",
    description := some "A five-act dramatic structure that includes exposition, rising action, climax, falling action, and resolution.",
    sections := [
      { key := "exposition", title := "Exposition",
        description := "Introduce the setting, characters, and the basic conflict. Set the stage for what follows.", order := 1 },
      { key := "rising_action", title := "Rising Action",
        description := "Series of events that build up tension and complications, leading toward the climax.", order := 2 },
      { key := "climax", title := "Climax",
        description := "The turning point and moment of highest tension in the story. The protagonist faces the central conflict directly.", order := 3 },
      { key := "falling_action", title := "Falling Action",
        description := "Events following the climax that show the consequences of decisions made during the climactic moment.", order := 4 },
      { key := "resolution", title := "Resolution (Dénouement)",
        description := "Final resolution of the story\x27s conflicts. Loose ends are tied up and a new normal is established.", order := 5 }
    ],
    isDefault := some true },
  { templateType := "hero_journey",
    name := "The Hero\x27s Journey",
    description := some "Joseph Campbell\x27s monomyth structure featuring a hero who goes on an adventure, faces challenges, wins victory, and returns transformed.",
    sections := [
      { key := "ordinary_world", title := "Ordinary World",
        description := "The hero\x27s normal world before the adventure begins. Establishes the character\x27s normal life and limitations.", order := 1 },
      { key := "call_to_adventure", title := "Call to Adventure",
        description := "The hero is presented with a challenge, problem, or adventure to undertake.", order := 2 },
      { key := "refusal_of_call", title := "Refusal of the Call",
        description := "The hero initially refuses the call due to fear, insecurity, or other obligations.", order := 3 },
      { key := "meeting_the_mentor", title := "Meeting the Mentor",
        description := "The hero encounters a mentor figure who provides guidance, wisdom, or magical aid.", order := 4 },
      { key := "crossing_threshold", title := "Crossing the First Threshold",
        description := "The hero commits to the adventure and crosses into the special world where the rules are different.", order := 5 },
      { key := "tests_allies_enemies", title := "Tests, Allies, and Enemies",
        description := "The hero faces tests, makes allies, and confronts enemies in the special world.", order := 6 },
      { key := "approach_inmost_cave", title := "Approach to the Inmost Cave",
        description := "The hero prepares for the major challenge ahead, often involving introspection or preparation.", order := 7 },
      { key := "ordeal", title := "The Ordeal",
        description := "The hero faces their greatest fear or challenge, a moment of \"death and rebirth.\"", order := 8 },
      { key := "reward", title := "Reward (Seizing the Sword)",
        description := "The hero obtains what they sought, be it a physical object, knowledge, or reconciliation.", order := 9 },
      { key := "road_back", title := "The Road Back",
        description := "The hero begins the journey back to the ordinary world, often pursued by remaining threats.", order := 10 },
      { key := "resurrection", title := "Resurrection",
        description := "The hero faces a final test, using all they\x27ve learned to overcome the ultimate challenge.", order := 11 },
      { key := "return_with_elixir", title := "Return with the Elixir",
        description := "The hero returns to the ordinary world with something that can benefit others (insight, treasure, or love).", order := 12 }
    ],
    isDefault := some true },
  { templateType := "three_act",
    name := "Three Act Structure",
    description := some "A traditional storytelling approach divided into beginning (setup), middle (confrontation), and end (resolution).",
    sections := [
      { key := "act1_setup", title := "Act 1: Setup",
        description := "Introduce the main characters, setting, and the central conflict. Ends with an inciting incident that launches the main storyline.", order := 1 },
      { key := "act1_inciting_incident", title := "Inciting Incident",
        description := "The event that sets the story in motion and disrupts the protagonist\x27s normal life.", order := 2 },
      { key := "act1_turning_point", title := "First Plot Point",
        description := "The protagonist commits to addressing the central conflict, transitioning into Act 2.", order := 3 },
      { key := "act2_confrontation", title := "Act 2: Confrontation",
        description := "The protagonist faces obstacles while trying to resolve the central problem. Tension escalates.", order := 4 },
      { key := "act2_midpoint", title := "Midpoint",
        description := "A significant event that changes the protagonist\x27s perspective or approach to their goal.", order := 5 },
      { key := "act2_turning_point", title := "Second Plot Point",
        description := "A major setback or revelation that propels the story into the final act.", order := 6 },
      { key := "act3_resolution", title := "Act 3: Resolution",
        description := "The central conflict reaches its climax and is resolved. The story concludes with a new equilibrium.", order := 7 },
      { key := "act3_climax", title := "Climax",
        description := "The final confrontation where the protagonist faces the antagonist or main challenge.", order := 8 },
      { key := "act3_denouement", title := "Denouement",
        description := "Loose ends are tied up and we see how characters have changed. The new normal is established.", order := 9 }
    ],
    isDefault := some true },
  { templateType := "story_circle",
    name := "Dan Harmon\x27s Story Circle",
    description := some "An eight-step storytelling structure derived from Joseph Campbell\x27s Hero\x27s Journey but simplified for modern storytelling.",
    sections := [
      { key := "you", title := "1. You (A character is in a zone of comfort)",
        description := "Establish the protagonist in their familiar environment and normal life.", order := 1 },
      { key := "need", title := "2. Need (But they want something)",
        description := "The protagonist develops a conscious or unconscious desire for something.", order := 2 },
      { key := "go", title := "3. Go (They enter an unfamiliar situation)",
        description := "The protagonist leaves their comfort zone and enters a new, unfamiliar situation.", order := 3 },
      { key := "search", title := "4. Search (Adapt to it)",
        description := "The protagonist searches for what they need while adapting to the new situation.", order := 4 },
      { key := "find", title := "5. Find (Find what they wanted)",
        description := "The protagonist gets what they were looking for, but it comes with complications.", order := 5 },
      { key := "take", title := "6. Take (Pay a heavy price for it)",
        description := "The protagonist pays a price for getting what they wanted and faces consequences.", order := 6 },
      { key := "return", title := "7. Return (And go back to where they started)",
        description := "The protagonist returns to their familiar situation, bringing with them new knowledge or power.", order := 7 },
      { key := "change", title := "8. Change (Having changed)",
        description := "The protagonist has fundamentally changed as a result of their journey.", order := 8 }
    ],
    isDefault := some true },
  { templateType := "fichtean_curve",
    name := "Fichtean Curve",
    description := some "A story structure focused on a series of rising crises that build to a major climax, with little to no falling action or resolution.",
    sections := [
      { key := "introduction", title := "Introduction",
        description := "Brief introduction of the character and situation, immediately leading into action.", order := 1 },
      { key := "crisis_1", title := "First Crisis",
        description := "The first major obstacle or challenge the protagonist faces.", order := 2 },
      { key := "crisis_2", title := "Second Crisis",
        description := "A more significant challenge that builds on the first crisis.", order := 3 },
      { key := "crisis_3", title := "Third Crisis",
        description := "An even more significant challenge that continues to raise the stakes.", order := 4 },
      { key := "crisis_4", title := "Fourth Crisis",
        description := "The tension continues to build with increasingly difficult obstacles.", order := 5 },
      { key := "final_crisis", title := "Final Crisis",
        description := "The ultimate challenge where the protagonist must use everything they\x27ve learned.", order := 6 },
      { key := "climax", title := "Climax",
        description := "The highest point of tension and the moment of truth where the main conflict is resolved.", order := 7 },
      { key := "brief_resolution", title := "Brief Resolution",
        description := "A very brief conclusion showing the aftermath of the climactic moment.", order := 8 }
    ],
    isDefault := some true },
  { templateType := "save_the_cat",
    name := "Save the Cat Beat Sheet",
    description := some "Blake Snyder\x27s 15-beat story structure popularly used in screenwriting but applicable to novels as well.",
    sections := [
      { key := "opening_image", title := "1. Opening Image",
        description := "A snapshot of the main character and their world before the story begins. Sets the tone and mood.", order := 1 },
      { key := "theme_stated", title := "2. Theme Stated",
        description := "Someone states (often indirectly) what the story is thematically about.", order := 2 },
      { key := "setup", title := "3. Setup",
        description := "Introduce the main characters and their world, showing what needs fixing in the hero\x27s life.", order := 3 },
      { key := "catalyst", title := "4. Catalyst",
        description := "The inciting incident that sets the story in motion and disrupts the status quo.", order := 4 },
      { key := "debate", title := "5. Debate",
        description := "The hero initially resists the call to change, weighing options and considering risks.", order := 5 },
      { key := "break_into_two", title := "6. Break into Two",
        description := "The hero decides to accept the challenge and enters a new world or situation.", order := 6 },
      { key := "b_story", title := "7. B Story",
        description := "A secondary story (often a love story) that carries the theme and helps the hero solve the main problem.", order := 7 },
      { key := "fun_and_games", title := "8. Fun and Games",
        description := "The \"promise of the premise\" where we see the hero in their new world, exploring the concept.", order := 8 },
      { key := "midpoint", title := "9. Midpoint",
        description := "A false victory (or false defeat) that raises the stakes and pushes the hero in a new direction.", order := 9 },
      { key := "bad_guys_close_in", title := "10. Bad Guys Close In",
        description := "External pressures mount and internal doubts increase as enemies regroup after the midpoint.", order := 10 },
      { key := "all_is_lost", title := "11. All Is Lost",
        description := "The opposite of the midpoint: a false defeat (or false victory) where things are at their worst.", order := 11 },
      { key := "dark_night_of_soul", title := "12. Dark Night of the Soul",
        description := "The hero\x27s darkest moment where they must dig deep to find a solution.", order := 12 },
      { key := "break_into_three", title := "13. Break into Three",
        description := "The hero figures out a solution, often by combining A and B stories, and heads to the finale.", order := 13 },
      { key := "finale", title := "14. Finale",
        description := "The hero executes their plan, overcomes obstacles, and resolves the central problem.", order := 14 },
      { key := "final_image", title := "15. Final Image",
        description := "A mirror to the opening image, showing how the world and character have changed.", order := 15 }
    ],
    isDefault := some true },
  { templateType := "seven_point",
    name := "Seven-Point Story Structure",
    description := some "A story framework with seven key story points: hook, plot turn 1, pinch 1, midpoint, pinch 2, plot turn 2, and resolution.",
    sections := [
      { key := "hook", title := "1. Hook",
        description := "The starting point that draws readers in. Establishes the character in their normal world.", order := 1 },
      { key := "plot_turn_1", title := "2. Plot Turn 1",
        description := "The event that sets the story in motion. The protagonist leaves their comfort zone.", order := 2 },
      { key := "pinch_1", title := "3. Pinch 1",
        description := "The first major obstacle that applies pressure to the protagonist and raises the stakes.", order := 3 },
      { key := "midpoint", title := "4. Midpoint",
        description := "The protagonist moves from reaction to action. A turning point where they change their approach.", order := 4 },
      { key := "pinch_2", title := "5. Pinch 2",
        description := "A second, more significant obstacle that forces the protagonist to commit fully to their goal.", order := 5 },
      { key := "plot_turn_2", title := "6. Plot Turn 2",
        description := "The protagonist obtains the final piece of information or tool needed to resolve the central conflict.", order := 6 },
      { key := "resolution", title := "7. Resolution",
        description := "The protagonist confronts the antagonist or problem and resolves the central conflict.", order := 7 }
    ],
    isDefault := some true },
  { templateType := "freeform",
    name := "Freeform Structure",
    description := some "A completely customizable story structure where you define your own sections and organization.",
    sections := [
      { key := "section_1", title := "Section 1",
        description := "Define your own structure and organization here.", order := 1 },
      { key := "section_2", title := "Section 2",
        description := "Add as many sections as needed for your story.", order := 2 },
      { key := "section_3", title := "Section 3",
        description := "Customize titles and descriptions to fit your specific storytelling needs.", order := 3 }
    ],
    isDefault := some true }
]

/-- `initPlotTemplates`: select all template rows; if none exist, insert
every element of `plotTemplates` in order; otherwise do nothing.  (The
source wraps this in try/catch that only logs; store failure is not
modelled.) -/
def initPlotTemplates (s : Store) (clock : Nat) : Store :=
  if s.plotStructureTemplates.length = 0 then
    plotTemplates.foldl (fun st t => (createPlotStructureTemplate st t clock).1) s
  else s

/-- Sequential runs of the seed routine, one clock value per run. -/
def seedRuns (s : Store) (clocks : List Nat) : Store :=
  clocks.foldl (fun st c => initPlotTemplates st c) s

/-! ## REST handlers (server/routes.ts) -/

/-- An HTTP handler outcome: the store after the request, the status code,
and the JSON body when one is sent. -/
structure ApiResp (α : Type) where
  store : Store
  status : Nat
  body : Option α
  deriving DecidableEq

/-- GET /api/projects/:projectId/plot-structures. -/
def getProjectPlotStructuresRoute (s : Store) (projectId : Nat) :
    ApiResp (List PlotStructureRow) :=
  { store := s, status := 200, body := some (getProjectPlotStructures s projectId) }

/-- POST /api/plot-structures (body already validated by
`insertPlotStructureSchema.parse`; the 400 path for malformed payloads is
not modelled). -/
def postPlotStructureRoute (s : Store) (b : InsertPlotStructure)
    (clock : Nat) : ApiResp PlotStructureRow :=
  let res := createPlotStructure s b clock
  { store := res.1, status := 201, body := some res.2 }

/-- PUT /api/plot-structures/:id: passes `req.body` straight to
`updatePlotStructure`; 404 when no row matched. -/
def putPlotStructureRoute (s : Store) (id : Nat) (u : PlotStructureUpdate)
    (clock : Nat) : ApiResp PlotStructureRow :=
  let res := updatePlotStructure s id u clock
  match res.2 with
  | some row => { store := res.1, status := 200, body := some row }
  | none => { store := res.1, status := 404, body := none }

/-- DELETE /api/plot-structures/:id: 404 when `deletePlotStructure` reports
failure, else 204. -/
def deletePlotStructureRoute (s : Store) (id : Nat) : ApiResp Unit :=
  let res := deletePlotStructure s id
  if !res.2 then { store := res.1, status := 404, body := none }
  else { store := res.1, status := 204, body := none }

/-- GET /api/plot-structures/:structureId/sections. -/
def getPlotStructureSectionsRoute (s : Store) (structureId : Nat) :
    ApiResp (List PlotStructureSectionRow) :=
  { store := s, status := 200, body := some (getPlotStructureSections s structureId) }

/-- POST /api/plot-structure-sections (body already validated by
`insertPlotStructureSectionSchema.parse`). -/
def postPlotStructureSectionRoute (s : Store) (b : InsertPlotStructureSection)
    (clock : Nat) : ApiResp PlotStructureSectionRow :=
  let res := createPlotStructureSection s b clock
  { store := res.1, status := 201, body := some res.2 }

/-- PUT /api/plot-structure-sections/:id. -/
def putPlotStructureSectionRoute (s : Store) (id : Nat)
    (u : PlotStructureSectionUpdate) (clock : Nat) :
    ApiResp PlotStructureSectionRow :=
  let res := updatePlotStructureSection s id u clock
  match res.2 with
  | some row => { store := res.1, status := 200, body := some row }
  | none => { store := res.1, status := 404, body := none }

/-- DELETE /api/plot-structure-sections/:id. -/
def deletePlotStructureSectionRoute (s : Store) (id : Nat) : ApiResp Unit :=
  let res := deletePlotStructureSection s id
  if !res.2 then { store := res.1, status := 404, body := none }
  else { store := res.1, status := 204, body := none }

/-! ## The `isAuthenticated` middleware (server/routes.ts)

Header values are modelled as `List Char` so that the JS string operations
(`split`, `startsWith`, `substring`, `parseInt`) can be reasoned about
inductively. -/

/-- The `req.user` value the middleware installs. -/
structure AuthUser where
  id : Int
  username : String
  deriving DecidableEq

/-- JS `String.prototype.split` with a single-character separator: splits at
every occurrence, keeping empty pieces. -/
def splitOnChar (c : Char) : List Char → List (List Char)
  | [] => [[]]
  | x :: xs =>
    let r := splitOnChar c xs
    if x = c then [] :: r
    else
      match r with
      | [] => [[x]]
      | y :: ys => (x :: y) :: ys

/-- Value of a maximal run of leading decimal digits; `none` when there is
no leading digit (JS `NaN`). -/
def decDigitsVal (l : List Char) : Option Nat :=
  let ds := l.takeWhile Char.isDigit
  if ds.isEmpty then none
  else some (ds.foldl (fun acc c => acc * 10 + (c.toNat - 48)) 0)

/-- Value of a maximal run of leading hexadecimal digits. -/
def hexDigitsVal (l : List Char) : Option Nat :=
  let ds := l.takeWhile (fun c => c.isDigit ∨ ('a' ≤ c ∧ c ≤ 'f') ∨ ('A' ≤ c ∧ c ≤ 'F'))
  if ds.isEmpty then none
  else some (ds.foldl (fun acc c =>
    acc * 16 + (if c.isDigit then c.toNat - 48
      else if 'a' ≤ c then c.toNat - 87 else c.toNat - 55)) 0)

/-- Digit parsing after the sign: a `0x`/`0X` prefix switches to base 16
(JS `parseInt` with no radix argument), otherwise base 10. -/
def jsParseDigits : List Char → Option Nat
  | '0' :: 'x' :: rest => hexDigitsVal rest
  | '0' :: 'X' :: rest => hexDigitsVal rest
  | l => decDigitsVal l

/-- JS `parseInt(s)` (radix unspecified): skip leading whitespace, optional
sign, then digits; `none` models `NaN`. -/
def jsParseInt (s : List Char) : Option Int :=
  let t := s.dropWhile Char.isWhitespace
  match t with
  | '-' :: u => (jsParseDigits u).map (fun v => -(v : Int))
  | '+' :: u => (jsParseDigits u).map (fun v => (v : Int))
  | u => (jsParseDigits u).map (fun v => (v : Int))

/-- The token branch of `isAuthenticated`: for a truthy token starting with
`user-`, split on `-`; with at least two pieces, `parseInt(parts[1])`
yields the user id, and the middleware installs
`\x7b id: userId, username: "TokenUser" \x7d` as `req.user`.  Any failure
falls through to unauthorized. -/
def tokenAuthUser (token : List Char) : Option AuthUser :=
  if !token.isEmpty && "user-".toList.isPrefixOf token then
    let parts := splitOnChar '-' token
    if 2 ≤ parts.length then
      match jsParseInt (parts.getD 1 []) with
      | some userId => some { id := userId, username := "TokenUser" }
      | none => none
    else none
  else none

/-- The `isAuthenticated` middleware: session authentication first; failing
that, a Bearer token of the form `user-...` is accepted via `tokenAuthUser`.
The result is the `req.user` the route handler sees (`none` = the
middleware responds 401 and the handler is never reached). -/
def isAuthenticatedUser (sessionUser : Option AuthUser)
    (authHeader : Option (List Char)) : Option AuthUser :=
  match sessionUser with
  | some u => some u
  | none =>
    match authHeader with
    | some h =>
      if "Bearer ".toList.isPrefixOf h then tokenAuthUser (h.drop 7)
      else none
    | none => none

/-! ## The Section Materializer

The client-side hook that expands a chosen template
(`createFromTemplate` in `client/src/hooks/use-plot-structure`) is not part
of the source snapshot; only its callers and the server operations it
invokes are.  It is therefore modelled from the spec (§4.2), on top of the
server-side operations embedded above. -/

/-- The section-creation payload the materializer sends for one template
entry (spec §4.2 step 4: `sectionKey = entry.key`, `title = entry.title`,
`content = ""`, `order = entry.order`). -/
def sectionInsertOfEntry (instId : Nat) (e : SectionDef) :
    InsertPlotStructureSection :=
  { plotStructureId := instId
    sectionKey := e.key
    title := e.title
    content := some ""
    order := e.order }

/-- Ascending comparison on the `order` field of template section entries. -/
def sectionDefLE (a b : SectionDef) : Prop := a.order ≤ b.order

instance : DecidableRel sectionDefLE := fun a b =>
  inferInstanceAs (Decidable (a.order ≤ b.order))

instance : IsTotal SectionDef sectionDefLE :=
  ⟨fun a b => Int.le_total a.order b.order⟩

instance : IsTrans SectionDef sectionDefLE :=
  ⟨fun _ _ _ h₁ h₂ => le_trans h₁ h₂⟩

/-- Modelled from the spec: the per-entry creation loop of §4.2 step 4.
One `createPlotStructureSection` (the effect of one
POST /api/plot-structure-sections) per entry, in the given order.  `failAt`
injects a store failure on the i-th creation (0-based); the returned
boolean is `false` when the loop stopped early because of such a failure. -/
def materializeLoop (instId clock : Nat) (failAt : Option Nat) :
    Nat → Store → List SectionDef → Store × Bool
  | _, s, [] => (s, true)
  | i, s, e :: rest =>
    if failAt = some i then (s, false)
    else
      materializeLoop instId clock failAt (i + 1)
        (createPlotStructureSection s (sectionInsertOfEntry instId e) clock).1 rest

/-- Modelled from the spec: `instantiate(projectId, templateId)` (§4.2),
the client-side `createFromTemplate` hook missing from the snapshot.
Look up the Template (NotFound → no effect); create one Instance row with
`name = Template.name`, top-level, `order` = next available among the
project\x27s top-level instances; create one Section row per template entry
in ascending `order`; on a partial failure, explicitly roll back by
deleting the Instance and any Sections created for it (§4.2 step 4). -/
def createFromTemplate (s : Store) (projectId templateId clock : Nat)
    (failAt : Option Nat) : Store × Option PlotStructureRow :=
  match getPlotStructureTemplate s templateId with
  | none => (s, none)
  | some tpl =>
    let entries := List.insertionSort sectionDefLE tpl.sections
    let nextOrder : Int :=
      (s.plotStructures.filter
        (fun r => r.projectId == projectId && r.parentId == none)).length
    let res := createPlotStructure s
      { projectId := projectId
        templateId := templateId
        name := tpl.name
        description := tpl.description
        parentId := none
        order := some nextOrder } clock
    let inst := res.2
    let run := materializeLoop inst.id clock failAt 0 res.1 entries
    if run.2 then (run.1, some inst)
    else
      ({ run.1 with
          plotStructures := run.1.plotStructures.filter (fun r => !(r.id == inst.id))
          plotStructureSections :=
            run.1.plotStructureSections.filter (fun r => !(r.plotStructureId == inst.id)) },
        none)


/-- The Section rows the materializer loop creates for entry list `es`,
starting at serial id `base`. -/
def mkMaterializedRows (instId clock : Nat) : Nat → List SectionDef → List PlotStructureSectionRow
  | _, [] => []
  | base, e :: rest =>
    { id := base, plotStructureId := instId, sectionKey := e.key, title := e.title,
      content := "", order := e.order, createdAt := clock, updatedAt := clock }
      :: mkMaterializedRows instId clock (base + 1) rest

/-! ## Auxiliary definitions used by the verification -/

/-- The template rows that seeding inserts for insert list `ts`, starting at
serial id `base`. -/
def mkTemplateRows (clock : Nat) : Nat → List InsertPlotStructureTemplate → List PlotStructureTemplateRow
  | _, [] => []
  | base, t :: rest =>
    { id := base, templateType := t.templateType, name := t.name,
      description := t.description, sections := t.sections, createdAt := clock,
      updatedAt := clock, isDefault := t.isDefault.getD false }
      :: mkTemplateRows clock (base + 1) rest

/-- Ascending comparison on the `order` column of Instances. -/
def structLE (a b : PlotStructureRow) : Prop := a.order ≤ b.order

instance : DecidableRel structLE := fun a b =>
  inferInstanceAs (Decidable (a.order ≤ b.order))

/-! ## Concrete stores used to instantiate the theorems -/

/-- A three-section demo template insert (sections listed out of `order`). -/
def demoTplInsertC1 : InsertPlotStructureTemplate :=
  { templateType := "demo", name := "Demo Structure",
    sections := [
      { key := "mid", title := "Middle", description := "", order := 2 },
      { key := "start", title := "Start", description := "", order := 1 },
      { key := "finish", title := "Finish", description := "", order := 3 }],
    isDefault := some true }

/-- Store holding only the demo template. -/
def demoStoreC1 : Store := (createPlotStructureTemplate ({} : Store) demoTplInsertC1 0).1

/-- The row `demoStoreC1` holds for the demo template. -/
def demoTplRowC1 : PlotStructureTemplateRow :=
  { id := 1, templateType := "demo", name := "Demo Structure", description := none,
    sections := [
      { key := "mid", title := "Middle", description := "", order := 2 },
      { key := "start", title := "Start", description := "", order := 1 },
      { key := "finish", title := "Finish", description := "", order := 3 }],
    createdAt := 0, updatedAt := 0, isDefault := true }

/-- A second copy of the demo template data for the atomicity claim. -/
def demoTplInsertC2 : InsertPlotStructureTemplate := demoTplInsertC1

/-- Store holding only the demo template (atomicity claim). -/
def demoStoreC2 : Store := (createPlotStructureTemplate ({} : Store) demoTplInsertC2 0).1

/-- The row `demoStoreC2` holds for the demo template. -/
def demoTplRowC2 : PlotStructureTemplateRow := demoTplRowC1

/-- A store with one Instance (id 1) owning one Section. -/
def demoStoreC3 : Store :=
  (createPlotStructureSection
    (createPlotStructure ({} : Store)
      { projectId := 42, templateId := 1, name := "S" } 0).1
    { plotStructureId := 1, sectionKey := "k1", title := "T1", order := 1 } 0).1

/-- A store with one Instance owning one Section titled `Act 1: Setup`. -/
def demoStoreC4 : Store :=
  (createPlotStructureSection
    (createPlotStructure ({} : Store)
      { projectId := 42, templateId := 1, name := "S" } 0).1
    { plotStructureId := 1, sectionKey := "act1_setup", title := "Act 1: Setup",
      order := 3 } 0).1

/-- The Section row `demoStoreC4` holds. -/
def demoRowC4 : PlotStructureSectionRow :=
  { id := 1, plotStructureId := 1, sectionKey := "act1_setup",
    title := "Act 1: Setup", content := "", order := 3, createdAt := 0, updatedAt := 0 }

/-- A content-only update payload. -/
def demoUpdC4 : PlotStructureSectionUpdate := { content := some "Opening scene." }

/-- A store with one Instance created from template 1. -/
def demoStoreC5 : Store :=
  (createPlotStructure ({} : Store)
    { projectId := 1, templateId := 1, name := "Inst" } 0).1

/-- A rename-only update payload (no `templateId`). -/
def demoUpdC5 : PlotStructureUpdate := { name := some "Renamed" }

/-- A store with two Instances of project 7 inserted with orders 2 then 1. -/
def demoStoreC8 : Store :=
  (createPlotStructure
    (createPlotStructure ({} : Store)
      { projectId := 7, templateId := 1, name := "A", order := some 2 } 0).1
    { projectId := 7, templateId := 1, name := "B", order := some 1 } 1).1

/-! ## Helper lemmas about the materializer -/


lemma mkMaterializedRows_length (instId clock : Nat) :
    ∀ (base : Nat) (es : List SectionDef),
      (mkMaterializedRows instId clock base es).length = es.length
  | _, [] => rfl
  | base, _ :: rest => by
      simp [mkMaterializedRows, mkMaterializedRows_length instId clock (base + 1) rest]

lemma mkMaterializedRows_map_key (instId clock : Nat) :
    ∀ (base : Nat) (es : List SectionDef),
      (mkMaterializedRows instId clock base es).map (fun r => r.sectionKey)
        = es.map (fun e => e.key)
  | _, [] => rfl
  | base, _ :: rest => by
      simp [mkMaterializedRows, mkMaterializedRows_map_key instId clock (base + 1) rest]

lemma mkMaterializedRows_map_title (instId clock : Nat) :
    ∀ (base : Nat) (es : List SectionDef),
      (mkMaterializedRows instId clock base es).map (fun r => r.title)
        = es.map (fun e => e.title)
  | _, [] => rfl
  | base, _ :: rest => by
      simp [mkMaterializedRows, mkMaterializedRows_map_title instId clock (base + 1) rest]

lemma mkMaterializedRows_map_order (instId clock : Nat) :
    ∀ (base : Nat) (es : List SectionDef),
      (mkMaterializedRows instId clock base es).map (fun r => r.order)
        = es.map (fun e => e.order)
  | _, [] => rfl
  | base, _ :: rest => by
      simp [mkMaterializedRows, mkMaterializedRows_map_order instId clock (base + 1) rest]

lemma mkMaterializedRows_mem (instId clock : Nat) :
    ∀ (base : Nat) (es : List SectionDef) (r : PlotStructureSectionRow),
      r ∈ mkMaterializedRows instId clock base es →
      r.plotStructureId = instId ∧ r.content = ""
  | base, e :: rest, r => by
      intro hr
      rcases List.mem_cons.mp hr with h | h
      · subst h; exact ⟨rfl, rfl⟩
      · exact mkMaterializedRows_mem instId clock (base + 1) rest r h
  | _, [], r => by intro hr; cases hr

lemma materializeLoop_none_eq (instId clock : Nat) :
    ∀ (es : List SectionDef) (i : Nat) (s : Store),
      materializeLoop instId clock none i s es =
        ({ s with
            plotStructureSections :=
              s.plotStructureSections ++ mkMaterializedRows instId clock s.nextSectionId es,
            nextSectionId := s.nextSectionId + es.length }, true)
  | [], i, s => by
      simp [materializeLoop, mkMaterializedRows]
  | e :: rest, i, s => by
      rw [materializeLoop]
      rw [if_neg (by simp)]
      rw [materializeLoop_none_eq instId clock rest (i + 1)]
      cases s
      simp [createPlotStructureSection, sectionInsertOfEntry, mkMaterializedRows,
        List.append_assoc, Option.getD]
      omega

lemma materializeLoop_frame (instId clock : Nat) (failAt : Option Nat) :
    ∀ (es : List SectionDef) (i : Nat) (s : Store),
      (materializeLoop instId clock failAt i s es).1.plotStructures = s.plotStructures ∧
      (materializeLoop instId clock failAt i s es).1.plotStructureTemplates
        = s.plotStructureTemplates ∧
      (materializeLoop instId clock failAt i s es).1.nextStructureId = s.nextStructureId
  | [], i, s => ⟨rfl, rfl, rfl⟩
  | e :: rest, i, s => by
      rw [materializeLoop]
      split
      · exact ⟨rfl, rfl, rfl⟩
      · exact materializeLoop_frame instId clock failAt rest (i + 1) _

lemma materializeLoop_sections_shape (instId clock : Nat) (failAt : Option Nat) :
    ∀ (es : List SectionDef) (i : Nat) (s : Store),
      ∃ created : List PlotStructureSectionRow,
        (materializeLoop instId clock failAt i s es).1.plotStructureSections
          = s.plotStructureSections ++ created ∧
        ∀ r ∈ created, r.plotStructureId = instId
  | [], i, s => ⟨[], by simp [materializeLoop], by simp⟩
  | e :: rest, i, s => by
      rw [materializeLoop]
      split
      · exact ⟨[], by simp, by simp⟩
      · obtain ⟨created, hc, hmem⟩ :=
          materializeLoop_sections_shape instId clock failAt rest (i + 1)
            (createPlotStructureSection s (sectionInsertOfEntry instId e) clock).1
        refine ⟨({ id := s.nextSectionId, plotStructureId := instId, sectionKey := e.key,
                   title := e.title, content := "", order := e.order, createdAt := clock,
                   updatedAt := clock } : PlotStructureSectionRow) :: created, ?_, ?_⟩
        · rw [hc]
          simp [createPlotStructureSection, sectionInsertOfEntry, Option.getD]
        · intro r hr
          rcases List.mem_cons.mp hr with h | h
          · subst h; rfl
          · exact hmem r h

lemma materializeLoop_fail_snd (instId clock j : Nat) :
    ∀ (es : List SectionDef) (i : Nat) (s : Store), i ≤ j → j < i + es.length →
      (materializeLoop instId clock (some j) i s es).2 = false
  | [], i, s, hij, hlt => by simp at hlt; omega
  | e :: rest, i, s, hij, hlt => by
      rw [materializeLoop]
      by_cases h : j = i
      · subst h; rw [if_pos rfl]
      · rw [if_neg (by simp [h])]
        exact materializeLoop_fail_snd instId clock j rest (i + 1) _
          (by omega) (by simp at hlt; omega)

lemma filter_append_fresh (secs rows : List PlotStructureSectionRow) (nS : Nat)
    (hfresh : ∀ r ∈ secs, r.plotStructureId ≠ nS)
    (hrows : ∀ r ∈ rows, r.plotStructureId = nS) :
    (secs ++ rows).filter (fun r => r.plotStructureId == nS) = rows := by
  rw [List.filter_append]
  have h1 : secs.filter (fun r => r.plotStructureId == nS) = [] := by
    rw [List.filter_eq_nil_iff]
    intro a ha
    simp only [beq_iff_eq]
    exact hfresh a ha
  have h2 : rows.filter (fun r => r.plotStructureId == nS) = rows := by
    apply List.filter_eq_self.mpr
    intro r hr
    simp [hrows r hr]
  rw [h1, h2, List.nil_append]

lemma materializeLoop_rollback (instId clock : Nat) (failAt : Option Nat) :
    ∀ (es : List SectionDef) (i : Nat) (s : Store),
      ((materializeLoop instId clock failAt i s es).1.plotStructureSections.filter
          (fun r => !(r.plotStructureId == instId)))
        = s.plotStructureSections.filter (fun r => !(r.plotStructureId == instId))
  | [], i, s => rfl
  | e :: rest, i, s => by
      rw [materializeLoop]
      split
      · rfl
      · rw [materializeLoop_rollback instId clock failAt rest (i + 1)]
        simp [createPlotStructureSection, sectionInsertOfEntry]

lemma filter_append_not_id (sts : List PlotStructureRow) (row : PlotStructureRow)
    (nS : Nat) (hfresh : ∀ r ∈ sts, r.id ≠ nS) (hrow : row.id = nS) :
    (sts ++ [row]).filter (fun r => !(r.id == nS)) = sts := by
  rw [List.filter_append]
  have h1 : sts.filter (fun r => !(r.id == nS)) = sts := by
    apply List.filter_eq_self.mpr
    intro r hr
    simp [hfresh r hr]
  have h2 : List.filter (fun r => !(r.id == nS)) [row] = [] := by
    simp [List.filter, hrow]
  rw [h1, h2, List.append_nil]


/-! ## Helper lemmas about seeding -/

lemma mkTemplateRows_length (clock : Nat) :
    ∀ (base : Nat) (ts : List InsertPlotStructureTemplate),
      (mkTemplateRows clock base ts).length = ts.length
  | _, [] => rfl
  | base, _ :: rest => by
      simp [mkTemplateRows, mkTemplateRows_length clock (base + 1) rest]

lemma mkTemplateRows_map_pair (clock : Nat) :
    ∀ (base : Nat) (ts : List InsertPlotStructureTemplate),
      (mkTemplateRows clock base ts).map (fun t => (t.templateType, t.name))
        = ts.map (fun t => (t.templateType, t.name))
  | _, [] => rfl
  | base, _ :: rest => by
      simp [mkTemplateRows, mkTemplateRows_map_pair clock (base + 1) rest]

lemma mkTemplateRows_map_type (clock : Nat) :
    ∀ (base : Nat) (ts : List InsertPlotStructureTemplate),
      (mkTemplateRows clock base ts).map (fun t => t.templateType)
        = ts.map (fun t => t.templateType)
  | _, [] => rfl
  | base, _ :: rest => by
      simp [mkTemplateRows, mkTemplateRows_map_type clock (base + 1) rest]

lemma seedFold_eq (clock : Nat) :
    ∀ (ts : List InsertPlotStructureTemplate) (s : Store),
      ts.foldl (fun st t => (createPlotStructureTemplate st t clock).1) s =
        { s with
            plotStructureTemplates :=
              s.plotStructureTemplates ++ mkTemplateRows clock s.nextTemplateId ts,
            nextTemplateId := s.nextTemplateId + ts.length }
  | [], s => by simp [mkTemplateRows]
  | t :: rest, s => by
      rw [List.foldl_cons, seedFold_eq clock rest]
      cases s
      simp [createPlotStructureTemplate, mkTemplateRows, List.append_assoc]
      omega

lemma init_noop (s : Store) (c : Nat) (h : s.plotStructureTemplates ≠ []) :
    initPlotTemplates s c = s := by
  simp only [initPlotTemplates]
  rw [if_neg]
  simpa [List.length_eq_zero] using h

lemma seedRuns_noop : ∀ (clocks : List Nat) (s : Store),
    s.plotStructureTemplates ≠ [] → seedRuns s clocks = s
  | [], _, _ => rfl
  | c :: cs, s, h => by
      show seedRuns (initPlotTemplates s c) cs = s
      rw [init_noop s c h]
      exact seedRuns_noop cs s h

lemma count_le_one_of_nodup (l : List String) (hl : l.Nodup) (ty : String) :
    (l.filter (fun x => x == ty)).length ≤ 1 := by
  induction l with
  | nil => simp
  | cons a l ih =>
    rw [List.nodup_cons] at hl
    by_cases ha : a = ty
    · subst ha
      rw [List.filter_cons_of_pos (by simp)]
      have hz : l.filter (fun x => x == a) = [] := by
        rw [List.filter_eq_nil_iff]
        intro b hb
        simp only [beq_iff_eq]
        intro hba
        exact hl.1 (hba ▸ hb)
      rw [hz]
      simp
    · rw [List.filter_cons_of_neg (by simpa using ha)]
      exact ih hl.2

lemma length_filter_map (f : α → β) (p : β → Bool) :
    ∀ l : List α, ((l.map f).filter p).length = (l.filter (fun a => p (f a))).length
  | [] => rfl
  | a :: l => by
      simp only [List.map_cons, List.filter_cons]
      by_cases h : p (f a) <;> simp [h, length_filter_map f p l]

/-! ## Helper lemmas about the token middleware -/

lemma isPrefixOf_append_self {α : Type} [BEq α] [LawfulBEq α] :
    ∀ (l₁ l₂ : List α), l₁.isPrefixOf (l₁ ++ l₂) = true
  | [], _ => by simp [List.isPrefixOf]
  | a :: l, l₂ => by
      simp [List.isPrefixOf, isPrefixOf_append_self l l₂]

lemma splitOnChar_append (c : Char) :
    ∀ (l₁ l₂ : List Char), c ∉ l₁ →
      splitOnChar c (l₁ ++ c :: l₂) = l₁ :: splitOnChar c l₂
  | [], l₂, _ => by simp [splitOnChar]
  | x :: xs, l₂, h => by
      have hx : ¬(x = c) := fun hh => h (by simp [hh])
      have hxs : c ∉ xs := fun hh => h (List.mem_cons_of_mem _ hh)
      rw [List.cons_append, splitOnChar, if_neg hx,
        splitOnChar_append c xs l₂ hxs]

/-! ## The claims -/

/-- C1 (materialization completeness): for every Template whose sections
list parses to N entries, applying the template to a project (the
spec-modelled `createFromTemplate`, with no injected failure) creates
exactly N Section rows under the new Instance, one per template entry in
ascending `order`, with `sectionKey = entry.key`, `title = entry.title`,
`content = ""` and `order = entry.order`; consequently the set of
`sectionKey` values of the new Instance's Sections equals the set of keys
of the Template's sections.  The freshness hypothesis says no pre-existing
Section row already references the id the new Instance will get. -/
theorem materialization_completeness
    (s : Store) (pid tid clock : Nat) (tpl : PlotStructureTemplateRow)
    (htpl : getPlotStructureTemplate s tid = some tpl)
    (hfresh : ∀ r ∈ s.plotStructureSections, r.plotStructureId ≠ s.nextStructureId) :
    ∃ inst : PlotStructureRow,
      (createFromTemplate s pid tid clock none).2 = some inst ∧
      ((createFromTemplate s pid tid clock none).1.plotStructureSections.filter
          (fun r => r.plotStructureId == inst.id)).length = tpl.sections.length ∧
      ((createFromTemplate s pid tid clock none).1.plotStructureSections.filter
          (fun r => r.plotStructureId == inst.id)).map (fun r => r.sectionKey)
        = (List.insertionSort sectionDefLE tpl.sections).map (fun e => e.key) ∧
      ((createFromTemplate s pid tid clock none).1.plotStructureSections.filter
          (fun r => r.plotStructureId == inst.id)).map (fun r => r.title)
        = (List.insertionSort sectionDefLE tpl.sections).map (fun e => e.title) ∧
      ((createFromTemplate s pid tid clock none).1.plotStructureSections.filter
          (fun r => r.plotStructureId == inst.id)).map (fun r => r.order)
        = (List.insertionSort sectionDefLE tpl.sections).map (fun e => e.order) ∧
      (∀ r ∈ (createFromTemplate s pid tid clock none).1.plotStructureSections.filter
          (fun r => r.plotStructureId == inst.id), r.content = "") ∧
      (∀ k : String,
        k ∈ ((createFromTemplate s pid tid clock none).1.plotStructureSections.filter
            (fun r => r.plotStructureId == inst.id)).map (fun r => r.sectionKey) ↔
        k ∈ tpl.sections.map (fun e => e.key)) := by
  obtain ⟨tpls, sts, secs, nT, nS, nSec⟩ := s
  simp only at hfresh
  simp only [createFromTemplate, htpl]
  dsimp only [createPlotStructure]
  rw [materializeLoop_none_eq]
  dsimp only
  rw [if_pos rfl]
  refine ⟨_, rfl, ?_, ?_, ?_, ?_, ?_, ?_⟩ <;>
    dsimp only <;>
    rw [filter_append_fresh secs _ nS hfresh
      (fun r hr => (mkMaterializedRows_mem nS clock nSec _ r hr).1)]
  · rw [mkMaterializedRows_length, List.length_insertionSort]
  · rw [mkMaterializedRows_map_key]
  · rw [mkMaterializedRows_map_title]
  · rw [mkMaterializedRows_map_order]
  · intro r hr
    exact (mkMaterializedRows_mem nS clock nSec _ r hr).2
  · intro k
    rw [mkMaterializedRows_map_key]
    exact ((List.perm_insertionSort sectionDefLE tpl.sections).map (fun e => e.key)).mem_iff

/-- C1 witness: the completeness theorem applied to a store holding a
three-section demo template. -/
theorem materialization_completeness_witness :
    (getPlotStructureTemplate demoStoreC1 1 = some demoTplRowC1) ∧
    (∀ r ∈ demoStoreC1.plotStructureSections,
      r.plotStructureId ≠ demoStoreC1.nextStructureId) ∧
    (∃ inst : PlotStructureRow,
      (createFromTemplate demoStoreC1 42 1 5 none).2 = some inst ∧
      ((createFromTemplate demoStoreC1 42 1 5 none).1.plotStructureSections.filter
          (fun r => r.plotStructureId == inst.id)).length
        = demoTplRowC1.sections.length) := by
  obtain ⟨inst, h1, h2, -, -, -, -, -⟩ :=
    materialization_completeness demoStoreC1 42 1 5 demoTplRowC1 (by decide) (by decide)
  exact ⟨by decide, by decide, inst, h1, h2⟩

/-- C2 (materialization atomicity): when Section creation fails on the
k-th of the Template's entries (k strictly inside the entry list), the
spec-modelled materializer rolls the attempt back: the call reports
failure and afterwards the store holds exactly the Instance rows and
Section rows it held before — nothing from the attempt persists.  The
freshness hypotheses say no pre-existing row uses the id the new Instance
would get. -/
theorem materialization_atomicity
    (s : Store) (pid tid clock k : Nat) (tpl : PlotStructureTemplateRow)
    (htpl : getPlotStructureTemplate s tid = some tpl)
    (hk : k < tpl.sections.length)
    (hfreshSec : ∀ r ∈ s.plotStructureSections, r.plotStructureId ≠ s.nextStructureId)
    (hfreshSt : ∀ r ∈ s.plotStructures, r.id ≠ s.nextStructureId) :
    (createFromTemplate s pid tid clock (some k)).2 = none ∧
    (createFromTemplate s pid tid clock (some k)).1.plotStructures = s.plotStructures ∧
    (createFromTemplate s pid tid clock (some k)).1.plotStructureSections
      = s.plotStructureSections := by
  obtain ⟨tpls, sts, secs, nT, nS, nSec⟩ := s
  simp only at hfreshSec hfreshSt
  simp only [createFromTemplate, htpl]
  dsimp only [createPlotStructure]
  have hfail : ∀ s' : Store,
      (materializeLoop nS clock (some k) 0 s'
        (List.insertionSort sectionDefLE tpl.sections)).2 = false :=
    fun s' => materializeLoop_fail_snd nS clock k _ 0 s' (Nat.zero_le k)
      (by rw [List.length_insertionSort]; omega)
  rw [hfail]
  simp only [Bool.false_eq_true, if_false]
  refine ⟨?_, ?_, ?_⟩
  · trivial
  · dsimp only
    rw [(materializeLoop_frame nS clock (some k)
      (List.insertionSort sectionDefLE tpl.sections) 0 _).1]
    exact filter_append_not_id sts _ nS hfreshSt rfl
  · dsimp only
    rw [materializeLoop_rollback nS clock (some k)
      (List.insertionSort sectionDefLE tpl.sections) 0 _]
    apply List.filter_eq_self.mpr
    intro r hr
    simp [hfreshSec r hr]

/-- C2 witness: the atomicity theorem applied to a store holding a
three-section demo template, with the injected failure on the 2nd of the
3 section creations. -/
theorem materialization_atomicity_witness :
    (getPlotStructureTemplate demoStoreC2 1 = some demoTplRowC2) ∧
    (1 < demoTplRowC2.sections.length) ∧
    (∀ r ∈ demoStoreC2.plotStructureSections,
      r.plotStructureId ≠ demoStoreC2.nextStructureId) ∧
    (∀ r ∈ demoStoreC2.plotStructures, r.id ≠ demoStoreC2.nextStructureId) ∧
    (createFromTemplate demoStoreC2 42 1 5 (some 1)).2 = none ∧
    (createFromTemplate demoStoreC2 42 1 5 (some 1)).1.plotStructures
      = demoStoreC2.plotStructures ∧
    (createFromTemplate demoStoreC2 42 1 5 (some 1)).1.plotStructureSections
      = demoStoreC2.plotStructureSections := by
  obtain ⟨h1, h2, h3⟩ :=
    materialization_atomicity demoStoreC2 42 1 5 1 demoTplRowC2 (by decide) (by decide)
      (by decide) (by decide)
  exact ⟨by decide, by decide, by decide, by decide, h1, h2, h3⟩

/-- C3 counterexample: in a store whose Instance 1 owns one Section,
DELETE /api/plot-structures/1 answers 204 and removes the Instance, yet
the Section referencing it is still in the store — the claimed cascade
does not happen. -/
theorem cascade_delete_counterexample :
    ((demoStoreC3.plotStructureSections.filter
        (fun r => r.plotStructureId == 1)).length = 1) ∧
    (deletePlotStructureRoute demoStoreC3 1).status = 204 ∧
    getPlotStructure (deletePlotStructureRoute demoStoreC3 1).store 1 = none ∧
    ((deletePlotStructureRoute demoStoreC3 1).store.plotStructureSections.filter
        (fun r => r.plotStructureId == 1)).length = 1 := by decide

/-- C3 (amended): deleting an Instance removes the Instance row — looking
it up afterwards finds nothing — but does not cascade: the Section table is
left completely untouched, so Sections referencing the deleted Instance
remain. -/
theorem cascade_delete_amended (s : Store) (id : Nat) :
    getPlotStructure (deletePlotStructureRoute s id).store id = none ∧
    (deletePlotStructureRoute s id).store.plotStructureSections
      = s.plotStructureSections := by
  constructor
  · simp only [deletePlotStructureRoute, deletePlotStructure, getPlotStructure]
    apply List.find?_eq_none.mpr
    intro r hr
    have h := List.mem_filter.mp hr
    simpa using h.2
  · rfl

/-- C4 (partial update frame): when Section `id` exists as row `r`, the
update returns the row in which exactly the payload's present fields are
replaced (absent fields keep their prior values, so a content-only payload
leaves `title` and `order` unchanged) and `updatedAt` is set to the
current clock whatever the payload contains; rows with a different id are
untouched in the store. -/
theorem partial_update_frame (s : Store) (id : Nat)
    (u : PlotStructureSectionUpdate) (clock : Nat) (r : PlotStructureSectionRow)
    (hfind : getPlotStructureSection s id = some r) :
    (updatePlotStructureSection s id u clock).2 = some
      { id := r.id, plotStructureId := u.plotStructureId.getD r.plotStructureId,
        sectionKey := u.sectionKey.getD r.sectionKey, title := u.title.getD r.title,
        content := u.content.getD r.content, order := u.order.getD r.order,
        createdAt := r.createdAt, updatedAt := clock } ∧
    (∀ x ∈ s.plotStructureSections, x.id ≠ id →
      x ∈ (updatePlotStructureSection s id u clock).1.plotStructureSections) := by
  constructor
  · simp only [getPlotStructureSection] at hfind
    simp only [updatePlotStructureSection, hfind]
    rfl
  · intro x hx hne
    simp only [updatePlotStructureSection]
    have hkeep : (if x.id == id then applySectionUpdate x u clock else x) = x := by
      simp [hne]
    exact hkeep ▸ List.mem_map_of_mem _ hx

/-- C4 witness: a content-only update on a concrete Section leaves `title`
and `order` as they were and advances `updatedAt` to the new clock. -/
theorem partial_update_frame_witness :
    (getPlotStructureSection demoStoreC4 1 = some demoRowC4) ∧
    (updatePlotStructureSection demoStoreC4 1 demoUpdC4 9).2 = some
      { id := 1, plotStructureId := 1, sectionKey := "act1_setup",
        title := "Act 1: Setup", content := "Opening scene.", order := 3,
        createdAt := 0, updatedAt := 9 } := by
  obtain ⟨h1, -⟩ := partial_update_frame demoStoreC4 1 demoUpdC4 9 demoRowC4 (by decide)
  exact ⟨by decide, h1⟩

/-- C5 counterexample: PUT /api/plot-structures/1 with payload containing
`templateId = 2` on an Instance bound to template 1 answers 200 and leaves
the Instance bound to template 2 — `templateId` is not immutable. -/
theorem template_binding_counterexample :
    ((getPlotStructure demoStoreC5 1).map (fun r => r.templateId) = some 1) ∧
    (putPlotStructureRoute demoStoreC5 1 { templateId := some 2 } 5).status = 200 ∧
    ((getPlotStructure (putPlotStructureRoute demoStoreC5 1
        { templateId := some 2 } 5).store 1).map (fun r => r.templateId) = some 2) := by
  decide

/-- C5 (amended): `updatePlotStructure` merges every field present in the
payload, `templateId` included; the binding to the creating template is
preserved exactly when the payload does not carry a `templateId` field. -/
theorem template_binding_amended (s : Store) (id : Nat) (u : PlotStructureUpdate)
    (clock : Nat) (h : u.templateId = none) :
    ((updatePlotStructure s id u clock).1.plotStructures.map (fun r => r.templateId))
      = s.plotStructures.map (fun r => r.templateId) ∧
    ((updatePlotStructure s id u clock).2.map (fun r => r.templateId))
      = (getPlotStructure s id).map (fun r => r.templateId) := by
  constructor
  · simp only [updatePlotStructure, List.map_map]
    apply List.map_congr_left
    intro r _
    simp only [Function.comp]
    split
    · simp [applyStructureUpdate, h]
    · rfl
  · simp only [updatePlotStructure, getPlotStructure]
    cases hf : s.plotStructures.find? (fun r => r.id == id)
    · rfl
    · simp [applyStructureUpdate, h]

/-- C5 amended witness: a rename-only payload leaves every Instance's
`templateId` unchanged. -/
theorem template_binding_amended_witness :
    (demoUpdC5.templateId = none) ∧
    ((updatePlotStructure demoStoreC5 1 demoUpdC5 5).1.plotStructures.map
        (fun r => r.templateId))
      = demoStoreC5.plotStructures.map (fun r => r.templateId) ∧
    ((updatePlotStructure demoStoreC5 1 demoUpdC5 5).2.map (fun r => r.templateId))
      = (getPlotStructure demoStoreC5 1).map (fun r => r.templateId) := by
  obtain ⟨h1, h2⟩ := template_binding_amended demoStoreC5 1 demoUpdC5 5 (by decide)
  exact ⟨by decide, h1, h2⟩

/-- C6 (seeding idempotence): starting from an empty catalog, one run of
the seed routine inserts exactly the eight built-in templates (same
`templateType`/`name` sequence as `plotTemplates`); a second run on the
seeded store is a no-op; and after any number of sequential runs the
catalog holds at most one row per built-in `templateType`. -/
theorem seeding_idempotence (s : Store) (c1 c2 : Nat) (clocks : List Nat) (ty : String)
    (h : s.plotStructureTemplates = []) :
    ((initPlotTemplates s c1).plotStructureTemplates.map (fun t => (t.templateType, t.name))
        = plotTemplates.map (fun t => (t.templateType, t.name))) ∧
    (initPlotTemplates (initPlotTemplates s c1) c2 = initPlotTemplates s c1) ∧
    (((seedRuns s clocks).plotStructureTemplates.filter
        (fun t => t.templateType == ty)).length ≤ 1) := by
  have hinit : ∀ c : Nat, initPlotTemplates s c =
      { s with
          plotStructureTemplates := mkTemplateRows c s.nextTemplateId plotTemplates,
          nextTemplateId := s.nextTemplateId + plotTemplates.length } := by
    intro c
    simp only [initPlotTemplates]
    rw [if_pos (by simp [h])]
    rw [seedFold_eq, h]
    simp
  have hne : ∀ c : Nat, (initPlotTemplates s c).plotStructureTemplates ≠ [] := by
    intro c
    rw [hinit c]
    dsimp only
    intro hc
    have hlen := congrArg List.length hc
    rw [mkTemplateRows_length] at hlen
    exact absurd hlen (by decide)
  refine ⟨?_, ?_, ?_⟩
  · rw [hinit c1]
    dsimp only
    rw [mkTemplateRows_map_pair]
  · exact init_noop _ c2 (hne c1)
  · cases clocks with
    | nil =>
      show ((s.plotStructureTemplates.filter (fun t => t.templateType == ty)).length ≤ 1)
      rw [h]
      simp
    | cons c cs =>
      show (((seedRuns (initPlotTemplates s c) cs).plotStructureTemplates.filter
        (fun t => t.templateType == ty)).length ≤ 1)
      rw [seedRuns_noop cs _ (hne c), hinit c]
      dsimp only
      rw [show (fun t : PlotStructureTemplateRow => t.templateType == ty)
          = (fun t => (fun x => x == ty) t.templateType) from rfl]
      rw [← length_filter_map (fun t : PlotStructureTemplateRow => t.templateType)
        (fun x => x == ty)]
      rw [mkTemplateRows_map_type]
      exact count_le_one_of_nodup _ (by decide) ty

/-- C6 witness: three sequential seed runs from the empty store leave at
most one `three_act` row in the catalog. -/
theorem seeding_idempotence_witness :
    (({} : Store).plotStructureTemplates = []) ∧
    ((seedRuns ({} : Store) [0, 1, 2]).plotStructureTemplates.filter
        (fun t => t.templateType == "three_act")).length ≤ 1 := by
  have h := seeding_idempotence ({} : Store) 0 1 [0, 1, 2] "three_act" (by decide)
  exact ⟨by decide, h.2.2⟩

/-- C7 (section listing order): `getPlotStructureSections` returns a list
sorted ascending on the `order` column whose members are exactly the
stored Sections with the requested `plotStructureId`. -/
theorem section_listing_sorted (s : Store) (psId : Nat) :
    List.Sorted sectionLE (getPlotStructureSections s psId) ∧
    ∀ r : PlotStructureSectionRow,
      r ∈ getPlotStructureSections s psId ↔
        (r ∈ s.plotStructureSections ∧ r.plotStructureId = psId) := by
  constructor
  · exact List.sorted_insertionSort sectionLE _
  · intro r
    simp [getPlotStructureSections, List.mem_insertionSort, List.mem_filter]

/-- C8 counterexample: with two project-7 Instances inserted with `order`
2 then 1, the listing answers 200 but returns the orders as `[2, 1]` —
not sorted ascending by `order`, because the select has no order-by. -/
theorem instance_listing_counterexample :
    ((getProjectPlotStructures demoStoreC8 7).map (fun r => r.order) = [2, 1]) ∧
    ¬ List.Sorted structLE (getProjectPlotStructures demoStoreC8 7) ∧
    (getProjectPlotStructuresRoute demoStoreC8 7).status = 200 := by
  refine ⟨by decide, by decide, by decide⟩

/-- C8 (amended): `getProjectPlotStructures` returns exactly the project's
Instances — membership is equivalent to being a stored Instance of that
project — but in table (insertion) order, with no sorting by `order`. -/
theorem instance_listing_amended (s : Store) (projectId : Nat) (r : PlotStructureRow) :
    r ∈ getProjectPlotStructures s projectId ↔
      (r ∈ s.plotStructures ∧ r.projectId = projectId) := by
  simp [getProjectPlotStructures, List.mem_filter]

/-- C9 (code bug evidence): deleting an Instance id that does not exist
still reports success — `deletePlotStructure` answers `true` because
`!!result` of the drizzle delete result object is always truthy — so the
route answers 204 instead of the 404 its own dead branch intends. -/
theorem delete_status_always_204 :
    getPlotStructure ({} : Store) 999 = none ∧
    (deletePlotStructure ({} : Store) 999).2 = true ∧
    (deletePlotStructureRoute ({} : Store) 999).status = 204 := by decide

/-- C10 (token authentication bypass): with no session, any request whose
Authorization header is `Bearer user-<n>-<anything>`, where `<n>` is a
`-`-free chunk that `parseInt` accepts as integer `n`, passes the
`isAuthenticated` middleware as user `n` (username `TokenUser`) — no
password, signature or session check is involved. -/
theorem token_auth_bypass (ds rest : List Char) (n : Int)
    (hds : ('-' : Char) ∉ ds) (hparse : jsParseInt ds = some n) :
    isAuthenticatedUser none (some ("Bearer user-".toList ++ ds ++ '-' :: rest))
      = some { id := n, username := "TokenUser" } := by
  have hsplit : "Bearer user-".toList ++ ds ++ '-' :: rest
      = "Bearer ".toList ++ ("user-".toList ++ ds ++ '-' :: rest) := by
    rw [show "Bearer user-".toList = "Bearer ".toList ++ "user-".toList from rfl]
    simp [List.append_assoc]
  rw [hsplit]
  simp only [isAuthenticatedUser]
  rw [if_pos (isPrefixOf_append_self _ _)]
  rw [List.drop_left' (show ("Bearer ".toList).length = 7 from rfl)]
  simp only [tokenAuthUser]
  rw [if_pos ?hcond]
  case hcond =>
    rw [show "user-".toList ++ ds ++ '-' :: rest
        = 'u' :: 's' :: 'e' :: 'r' :: '-' :: (ds ++ '-' :: rest) from rfl]
    simp only [List.isEmpty, Bool.not_false, Bool.true_and]
    exact isPrefixOf_append_self "user-".toList (ds ++ '-' :: rest)
  rw [show "user-".toList ++ ds ++ '-' :: rest
      = (['u', 's', 'e', 'r'] ++ '-' :: (ds ++ '-' :: rest)) from rfl]
  rw [splitOnChar_append _ _ _ (by decide)]
  rw [splitOnChar_append _ _ _ hds]
  rw [if_pos (by simp)]
  simp only [List.getD, List.get?, Option.getD]
  rw [hparse]

/-- C10 witness: the header `Bearer user-42-1700000` authenticates as user
42 with no session. -/
theorem token_auth_bypass_witness :
    (('-' : Char) ∉ ['4', '2']) ∧
    (jsParseInt ['4', '2'] = some 42) ∧
    (isAuthenticatedUser none
        (some ("Bearer user-".toList ++ ['4', '2'] ++ '-' :: "1700000".toList))
      = some { id := 42, username := "TokenUser" }) :=
  ⟨by decide, by decide,
    token_auth_bypass ['4', '2'] "1700000".toList 42 (by decide) (by decide)⟩

end QQReplit
